import Mathlib

/-!
Verification development for the watercolor-dissolution parameter engine
(`watercolor_dissolution_mcp.py`).

Shallow embedding conventions:
* Coordinates are rationals (`ℚ`); the source uses IEEE doubles.  Every
  concrete value a theorem below inspects is an exact short decimal on which
  double arithmetic and the rounding to 4 decimal places are exact, so the
  rational semantics agrees with the source on those values.
* Python's `round(x, 4)` (round-half-to-even on doubles) is modelled by
  `roundQ4` / `roundR4` built on Mathlib's `round`; the two tie rules only
  differ at exact `.xxxx5` ties, which none of the inspected values hit, and
  both are monotone and fix all 2-decimal values, which is all the bound
  theorems use.
* The source reports Euclidean distances `sqrt(Σ (aᵢ-bᵢ)²)`.  `sqrt` is
  strictly monotone on nonnegatives, so nearest-type selection by `<` on
  distances equals selection on squared distances; the embedding stores the
  squared distance and performs the same strict-`<`, first-wins scan.
* `math.exp`-based softmax is embedded over `ℝ` with `Real.exp`.
* JSON success/error payloads become `Except ErrorRecord _` values; purely
  presentational fields of the payloads (display names, long description
  strings, prompt prose, catalog records echoed verbatim) are elided and
  noted at each structure.
-/

set_option maxRecDepth 4000

namespace WatercolorDissolution

/-- The five parameter axes in the fixed canonical order of `PARAMETER_NAMES`. -/
inductive Axis where
  | dissolution_rate
  | edge_coherence
  | substrate_visibility
  | pigment_hydrology
  | anchor_density
deriving DecidableEq, Repr

/-- A point of the 5D parameter space: one rational per named axis. -/
structure ParamPoint where
  dissolution_rate : ℚ
  edge_coherence : ℚ
  substrate_visibility : ℚ
  pigment_hydrology : ℚ
  anchor_density : ℚ
deriving DecidableEq, Repr

/-- Coordinate projection in the canonical axis order. -/
def ParamPoint.get (p : ParamPoint) : Axis → ℚ
  | .dissolution_rate => p.dissolution_rate
  | .edge_coherence => p.edge_coherence
  | .substrate_visibility => p.substrate_visibility
  | .pigment_hydrology => p.pigment_hydrology
  | .anchor_density => p.anchor_density

/-- The `PARAMETER_NAMES` list — the canonical iteration order over the five axes. -/
def PARAMETER_NAMES : List Axis :=
  [.dissolution_rate, .edge_coherence, .substrate_visibility,
   .pigment_hydrology, .anchor_density]

/-- Build a point from a coordinate assignment, in canonical order. -/
def pointOfFun (f : Axis → ℚ) : ParamPoint :=
  ⟨f .dissolution_rate, f .edge_coherence, f .substrate_visibility,
   f .pigment_hydrology, f .anchor_density⟩

/-! ### Taxonomy Store

Only the numeric reference data the claims exercise is embedded: the visual
type centers, canonical-state coordinates and attractor states.  The
descriptive fields of each catalog entry (name, description, keywords,
optical record, colors, basin character strings, …) are presentational and
elided; where a function reads one of them this is noted at that function. -/

def editorialWashCenter : ParamPoint := ⟨0.15, 0.85, 0.10, 0.20, 0.90⟩
def contestedBoundaryCenter : ParamPoint := ⟨0.50, 0.50, 0.35, 0.50, 0.50⟩
def fullDissolutionCenter : ParamPoint := ⟨0.85, 0.15, 0.75, 0.85, 0.10⟩
def ghostImpressionCenter : ParamPoint := ⟨0.65, 0.75, 0.50, 0.10, 0.20⟩
def substrateEmergenceCenter : ParamPoint := ⟨0.70, 0.30, 0.85, 0.40, 0.30⟩
def chromaticFloodCenter : ParamPoint := ⟨0.90, 0.20, 0.50, 0.95, 0.15⟩

/-- The `VISUAL_TYPES` table, reduced to id ↦ center (insertion order preserved). -/
def VISUAL_TYPES : List (String × ParamPoint) :=
  [("editorial_wash", editorialWashCenter),
   ("contested_boundary", contestedBoundaryCenter),
   ("full_dissolution", fullDissolutionCenter),
   ("ghost_impression", ghostImpressionCenter),
   ("substrate_emergence", substrateEmergenceCenter),
   ("chromatic_flood", chromaticFloodCenter)]

/-- The `CANONICAL_STATES` table, reduced to id ↦ coordinates (insertion order
preserved; the `source`/`description` metadata fields are elided). -/
def CANONICAL_STATES : List (String × ParamPoint) :=
  [("editorial_wash", editorialWashCenter),
   ("light_wash", ⟨0.27, 0.73, 0.18, 0.30, 0.77⟩),
   ("contested_boundary", contestedBoundaryCenter),
   ("ghost_impression", ghostImpressionCenter),
   ("advancing_dissolution", ⟨0.68, 0.33, 0.55, 0.68, 0.30⟩),
   ("substrate_emergence", substrateEmergenceCenter),
   ("full_dissolution", fullDissolutionCenter),
   ("saturating_flood", ⟨0.88, 0.18, 0.63, 0.90, 0.13⟩),
   ("chromatic_flood", chromaticFloodCenter),
   ("restrained_study", ⟨0.68, 0.53, 0.68, 0.25, 0.25⟩)]

def restrainedStudyCoordinates : ParamPoint := ⟨0.68, 0.53, 0.68, 0.25, 0.25⟩

/-- An attractor preset: a named state plus basin radius. -/
structure AttractorPreset where
  state : ParamPoint
  basin_radius : ℚ
deriving DecidableEq, Repr

/-- The `ATTRACTOR_PRESETS` table (name/description strings elided). -/
def ATTRACTOR_PRESETS : List (String × AttractorPreset) :=
  [("editorial_discipline", ⟨editorialWashCenter, 0.25⟩),
   ("creative_tension", ⟨contestedBoundaryCenter, 0.20⟩),
   ("painterly_freedom", ⟨fullDissolutionCenter, 0.25⟩),
   ("spectral_trace", ⟨ghostImpressionCenter, 0.20⟩),
   ("breath_of_paper", ⟨substrateEmergenceCenter, 0.22⟩),
   ("saturated_tide", ⟨chromaticFloodCenter, 0.25⟩),
   ("balanced_study", ⟨restrainedStudyCoordinates, 0.18⟩)]

/-- The five substrate catalog keys (records themselves are presentational). -/
def SUBSTRATE_KEYS : List String :=
  ["hot_press", "cold_press", "rough", "yupo", "masa"]

/-- Association-list lookup: Python's `table[key]` guarded by `key in table`
(first matching key wins; all catalog keys are distinct). -/
def lookup1 {α : Type} : List (String × α) → String → Option α
  | [], _ => none
  | p :: rest, k => if p.1 = k then some p.2 else lookup1 rest k

/-! ### Geometry primitives -/

/-- Squared Euclidean distance over the five coordinates.  The source's
`_euclidean_distance` is the square root of this; see the header note. -/
def euclideanDistanceSq (a b : ParamPoint) : ℚ :=
  (PARAMETER_NAMES.map (fun k => (a.get k - b.get k) ^ 2)).sum

/-- Models `_lerp_state`: per-coordinate `a[k] + t*(b[k]-a[k])`. -/
def lerpState (a b : ParamPoint) (t : ℚ) : ParamPoint :=
  pointOfFun (fun k => a.get k + t * (b.get k - a.get k))

/-- Models `_nearest_visual_type`: linear scan over `VISUAL_TYPES` keeping the
strictly smaller distance (first-wins on ties).  The accumulator's `none`
plays the source's initial `float("inf")`; distances are compared squared
(`sqrt` is strictly monotone on nonnegatives, so the same id wins and the
same ties occur).  Returns the winning id and its squared distance. -/
def nearestVisualType (state : ParamPoint) : String × ℚ :=
  let r := VISUAL_TYPES.foldl
    (fun (best : String × Option ℚ) p =>
      let d := euclideanDistanceSq state p.2
      match best.2 with
      | none => (p.1, some d)
      | some bd => if d < bd then (p.1, some d) else best)
    ("", none)
  (r.1, r.2.getD 0)

/-- Python's `round(x, 4)` on the rational embedding. -/
def roundQ4 (q : ℚ) : ℚ := ((round (q * 10000) : ℤ) : ℚ) / 10000

/-- Per-coordinate `round(x, 4)` as applied to every output state dict. -/
def roundPoint4 (p : ParamPoint) : ParamPoint := pointOfFun (fun k => roundQ4 (p.get k))

/-! ### Shared id resolver (canonical state → visual type → attractor) -/

/-- The three-catalog resolution chain used by `compute_dissolution_distance`,
`compute_dissolution_trajectory` and `generate_dissolution_rhythmic_sequence`. -/
def resolveStateId (sid : String) : Option ParamPoint :=
  match lookup1 CANONICAL_STATES sid with
  | some c => some c
  | none =>
    match lookup1 VISUAL_TYPES sid with
    | some c => some c
    | none => (lookup1 ATTRACTOR_PRESETS sid).map (fun a => a.state)

/-- A structured error payload: the message, and the list of valid ids when
the source includes one (`none` when the payload has only the message). -/
structure ErrorRecord where
  error : String
  valid : Option (List String)
deriving DecidableEq, Repr

/-- A tool result: either a structured error record or a success payload
(the source returns one JSON object or the other). -/
inductive Result (α : Type) where
  | err (e : ErrorRecord)
  | ok (a : α)
deriving DecidableEq, Repr

/-- The success payload of a `Result`, if any. -/
def Result.payload {α : Type} : Result α → Option α
  | .err _ => none
  | .ok a => some a

/-! ### Text primitives

Python's `term in text` substring test and `str.lower()`.  `Char.toLower`
lowers ASCII letters only; Python's `lower` agrees with it on ASCII, and
every term in the taxonomy and every concrete input inspected below is
ASCII. -/

/-- Whether the first list is a prefix of the second. -/
def isSubAt : List Char → List Char → Bool
  | [], _ => true
  | _ :: _, [] => false
  | a :: ps, b :: ls => a == b && isSubAt ps ls

/-- Whether `pat` occurs contiguously inside the second list. -/
def occursIn (pat : List Char) : List Char → Bool
  | [] => pat.isEmpty
  | c :: rest => isSubAt pat (c :: rest) || occursIn pat rest

/-- Python's `term in text` on strings. -/
def containsTerm (text term : String) : Bool := occursIn term.data text.data

/-- Python's `text.lower()`. -/
def toLowerStr (s : String) : String := ⟨s.data.map Char.toLower⟩

/-! ### compute_dissolution_distance -/

/-- First-maximum selection of Python's `max(diff, key=lambda k: abs(diff[k]))`:
the fold replaces the incumbent only on a strictly larger absolute value, so
the earliest key attaining the maximum wins. -/
def maxKeyByAbs : List (Axis × ℚ) → Option Axis
  | [] => none
  | x :: rest =>
    some ((rest.foldl (fun best y => if |y.2| > |best.2| then y else best) x).1)

/-- Success payload of `compute_dissolution_distance`.  `distance_sq` holds
the squared distance (the source reports `round(sqrt(·), 4)`, which no claim
inspects); the per-axis differences and dominant axis are as in the source. -/
structure DistanceOk where
  id_1 : String
  id_2 : String
  distance_sq : ℚ
  per_axis_difference : List (Axis × ℚ)
  dominant_axis : Axis
deriving DecidableEq, Repr

/-- Models `compute_dissolution_distance`: resolve both ids through the shared
three-catalog chain, error (message only) on the first unresolved id, else
report per-axis rounded differences and the dominant axis.  The `.getD`
default of `maxKeyByAbs` is never used: the diff list always has the five
axes (Python's `max` would raise only on an empty dict). -/
def compute_dissolution_distance (id_1 id_2 : String) : Result DistanceOk :=
  match resolveStateId id_1 with
  | none => .err ⟨"Unknown id: " ++ id_1, none⟩
  | some s1 =>
    match resolveStateId id_2 with
    | none => .err ⟨"Unknown id: " ++ id_2, none⟩
    | some s2 =>
      let diff := PARAMETER_NAMES.map (fun k => (k, roundQ4 (s2.get k - s1.get k)))
      .ok ⟨id_1, id_2, euclideanDistanceSq s1 s2, diff,
           (maxKeyByAbs diff).getD .dissolution_rate⟩

/-! ### compute_dissolution_trajectory -/

/-- One trajectory sample.  `type_distance_sq` stores the squared nearest
distance (source: `round(sqrt(·), 4)`, uninspected by the claims). -/
structure TrajEntry where
  step : ℕ
  t : ℚ
  state : ParamPoint
  nearest_type : String
  type_distance_sq : ℚ
deriving DecidableEq, Repr

/-- Success payload of `compute_dissolution_trajectory` (`total_distance` is
likewise carried squared). -/
structure TrajectoryOk where
  start_id : String
  end_id : String
  num_steps : ℕ
  total_distance_sq : ℚ
  trajectory : List TrajEntry
deriving DecidableEq, Repr

/-- Models `compute_dissolution_trajectory`: resolve both ids, then sample the
`num_steps + 1` points at `t = i / num_steps` (ℚ division; for
`num_steps = 0` Python raises `ZeroDivisionError`, outside every claim,
which all require `num_steps ≥ 1`).  Output `t` and state coordinates are
rounded to 4 decimals as in the source. -/
def compute_dissolution_trajectory (start_id end_id : String) (num_steps : ℕ) :
    Result TrajectoryOk :=
  match resolveStateId start_id with
  | none => .err ⟨"Unknown id: " ++ start_id, none⟩
  | some start =>
    match resolveStateId end_id with
    | none => .err ⟨"Unknown id: " ++ end_id, none⟩
    | some stop =>
      let entries := (List.range (num_steps + 1)).map (fun (i : ℕ) =>
        let t : ℚ := (i : ℚ) / (num_steps : ℚ)
        let state := lerpState start stop t
        let nr := nearestVisualType state
        ({ step := i, t := roundQ4 t, state := roundPoint4 state,
           nearest_type := nr.1, type_distance_sq := nr.2 } : TrajEntry))
      .ok ⟨start_id, end_id, num_steps, euclideanDistanceSq start stop, entries⟩

/-! ### classify_dissolution_intent -/

/-- The `dissolution_terms` table (declaration order preserved). -/
def dissolution_terms : List (String × List String) :=
  [("editorial_wash",
    ["editorial", "magazine", "controlled", "sharp subject", "accent",
     "selective", "subtle", "restrained"]),
   ("contested_boundary",
    ["tension", "between", "both", "neither", "oscillat", "coexist",
     "compete", "mural", "boundary", "mix"]),
   ("full_dissolution",
    ["loose", "dissolve", "painterly", "watercolor", "abstract", "bloom",
     "backrun", "complete"]),
   ("ghost_impression",
    ["ghost", "faded", "blueprint", "trace", "skeleton", "palimpsest",
     "bleach", "dry", "crisp edge"]),
   ("substrate_emergence",
    ["paper", "white space", "negative", "minimal", "restraint", "breath",
     "ma ", "sparse", "empty"]),
   ("chromatic_flood",
    ["flood", "saturated", "wet", "drip", "pour", "expressionist", "bold",
     "vivid", "maximum", "intense"])]

/-- The `hydrology_terms` table (declaration order preserved). -/
def hydrology_terms : List (String × List String) :=
  [("dry", ["dry brush", "dry", "textured", "broken", "scratchy"]),
   ("controlled", ["controlled", "even", "smooth", "balanced", "standard"]),
   ("wet_on_dry", ["layered", "crisp layer", "hard edge layer", "glazing"]),
   ("wet_on_wet", ["wet on wet", "diffuse", "merge", "soft edge", "bloom"]),
   ("flooding", ["flood", "drip", "gravity", "pour", "capillary", "run"])]

/-- Number of terms occurring as substrings of `text` (the per-type score
loop `for term in terms: if term in text: score += 1`). -/
def countMatches (text : String) (terms : List String) : ℕ :=
  (terms.filter (fun term => containsTerm text term)).length

/-- Python's `max(values)` over the score dict's values: all scores are
naturals and the dict is never empty, so the 0 initial value is neutral. -/
def listMaxNat (l : List ℕ) : ℕ := l.foldl max 0

/-- Python's `max(type_scores, key=type_scores.get)`: the fold replaces the
incumbent only on a strictly larger value, so the first key attaining the
maximum (in insertion order) wins.  The `""` default is unreachable (the
score dict always has the six types). -/
def pyMaxKeyNat : List (String × ℕ) → String
  | [] => ""
  | x :: rest => (rest.foldl (fun best y => if y.2 > best.2 then y else best) x).1

/-- The `hid if hid != "dry" else ("dry_brush")` renaming. -/
def hydrologyKey (hid : String) : String := if hid = "dry" then ("dry_brush") else hid

/-- The hydrology-hint loop of `classify_dissolution_intent`:

    hydrology_match = "controlled_wash"
    for hid, terms in hydrology_terms.items():
        for term in terms:
            if term in text:
                hydrology_match = hid if hid != "dry" else "dry_brush"
                break

The `break` leaves only the inner loop, so the assignment happens (at most
once) for every category with a matching term, and the outer loop keeps
running; the fold below performs exactly those assignments in order. -/
def detectHydrology (text : String) : String :=
  hydrology_terms.foldl
    (fun acc p =>
      if p.2.any (fun term => containsTerm text term) then hydrologyKey p.1 else acc)
    ("controlled_wash")

/-- The substrate-hint chain of `classify_dissolution_intent`. -/
def detectSubstrate (text : String) : String :=
  if ["smooth", "fine detail", "illustration"].any (fun t => containsTerm text t) then
    "hot_press"
  else if ["rough", "texture", "expressive"].any (fun t => containsTerm text t) then
    "rough"
  else if ["japanese", "sumi", "ink wash"].any (fun t => containsTerm text t) then
    "masa"
  else if ["experimental", "synthetic", "yupo"].any (fun t => containsTerm text t) then
    "yupo"
  else
    "cold_press"

/-- Result of `classify_dissolution_intent` (the echoed `style_details`,
`matched_keywords` and `center` fields are presentational and elided). -/
structure ClassifyResult where
  primary_style : String
  confidence : ℚ
  type_scores : List (String × ℕ)
  suggested_hydrology : String
  suggested_substrate : String
deriving DecidableEq, Repr

/-- Models `classify_dissolution_intent`: lowercase the intent, score each visual
type by substring-matched term count, default to `contested_boundary` at
confidence 0.3 when every score is zero, else first-maximal type at
confidence `min(1.0, max_score/4.0)`; hydrology and substrate hints as in
their loops above. -/
def classify_dissolution_intent (user_intent : String) : ClassifyResult :=
  let text := toLowerStr user_intent
  let type_scores := dissolution_terms.map (fun p => (p.1, countMatches text p.2))
  let maxScore := listMaxNat (type_scores.map Prod.snd)
  { primary_style := if maxScore = 0 then ("contested_boundary") else pyMaxKeyNat type_scores,
    confidence := if maxScore = 0 then 0.3 else min 1 ((maxScore : ℚ) / 4),
    type_scores := type_scores,
    suggested_hydrology := detectHydrology text,
    suggested_substrate := detectSubstrate text }

/-- Modelled from the claim's words (not the source): the *first* category in
`hydrology_terms` declaration order having a matching term, defaulting to
`"controlled_wash"`.  Used only to compare the claimed tie policy against
the code's actual one. -/
def firstMatchCat (text : String) : List (String × List String) → Option String
  | [] => none
  | p :: rest =>
    if p.2.any (fun term => containsTerm text term) then some p.1
    else firstMatchCat text rest

/-- The claim's first-match-wins hydrology hint (see `firstMatchCat`). -/
def firstMatchHydrology (text : String) : String :=
  match firstMatchCat text hydrology_terms with
  | some hid => hydrologyKey hid
  | none => "controlled_wash"

/-- The *last* category in declaration order having a matching term (later
entries take precedence), defaulting to `"controlled_wash"`; the amended
description of the code's hydrology-hint policy. -/
def lastMatchCat (text : String) : List (String × List String) → Option String
  | [] => none
  | p :: rest =>
    match lastMatchCat text rest with
    | some h => some h
    | none =>
      if p.2.any (fun term => containsTerm text term) then some p.1 else none

/-- The last-match-wins hydrology hint (see `lastMatchCat`). -/
def lastMatchHydrology (text : String) : String :=
  match lastMatchCat text hydrology_terms with
  | some hid => hydrologyKey hid
  | none => "controlled_wash"

/-! ### map_dissolution_parameters -/

/-- Python dict lookup of the intensity factor: subtle 0.6, moderate 1.0,
dramatic 1.4, with 1.0 for any other string. -/
def intensityScale (intensity : String) : ℚ :=
  if intensity = "subtle" then 0.6
  else if intensity = "moderate" then 1.0
  else if intensity = "dramatic" then 1.4
  else 1.0

/-- The `emphasis_shifts` table read through `shifts.get(k, 0.0)`; an
unrecognized emphasis behaves like `"balanced"` (empty shift dict). -/
def emphasisShift (emphasis : String) (k : Axis) : ℚ :=
  if emphasis = "dissolution" then
    (if k = .dissolution_rate then 0.1 else if k = .anchor_density then -0.1 else 0)
  else if emphasis = "edge" then (if k = .edge_coherence then 0.15 else 0)
  else if emphasis = "substrate" then (if k = .substrate_visibility then 0.15 else 0)
  else if emphasis = "hydrology" then (if k = .pigment_hydrology then 0.15 else 0)
  else 0

/-- Clamping `max(0.0, min(1.0, x))`. -/
def clamp01 (x : ℚ) : ℚ := max 0 (min 1 x)

/-- The mapped (clamped, unrounded) state of `map_dissolution_parameters`:
`state[k] = clamp(midpoint + (center[k]-midpoint)*scale + shift[k])`. -/
def mapState (center : ParamPoint) (intensity emphasis : String) : ParamPoint :=
  pointOfFun (fun k =>
    clamp01 (0.5 + (center.get k - 0.5) * intensityScale intensity
      + emphasisShift emphasis k))

/-- The edge-mode bands (deliberately overlapping, built in source order). -/
def activeEdgeModes (st : ParamPoint) : List String :=
  (if st.edge_coherence > 0.6 then ["architectural_hard", "silhouette_cut"] else [])
  ++ (if 0.3 ≤ st.edge_coherence ∧ st.edge_coherence ≤ 0.7 then
        ["cauliflower_backrun", "granulation_boundary"] else [])
  ++ (if st.edge_coherence < 0.4 then ["feathered_bleed", "wet_lift"] else [])

/-- The five mutually exclusive hydrology bands at 0.15/0.35/0.55/0.8. -/
def hydrologyStateOf (h : ℚ) : String :=
  if h < 0.15 then ("dry_brush")
  else if h < 0.35 then ("controlled_wash")
  else if h < 0.55 then ("wet_on_dry")
  else if h < 0.8 then ("wet_on_wet")
  else ("flooding")

/-- The contrast-curve priority chain (evaluation order as in source). -/
def contrastCurveOf (st : ParamPoint) : String :=
  if st.anchor_density > 0.7 then ("anchor_contrast")
  else if st.dissolution_rate > 0.8 ∧ st.pigment_hydrology > 0.8 then ("flood_flat")
  else if st.dissolution_rate > 0.6 then ("high_key_dissolution")
  else if st.substrate_visibility > 0.6 then ("lifted_wash")
  else ("photographic_preserved")

/-- Success payload of `map_dissolution_parameters`.  The echoed catalog
records, `characteristics` prose, keyword/optical/color echoes and the
`full_vocabulary` bundle are presentational and elided; `substrate` keeps
just the resolved substrate id (`none` when absent or unknown). -/
structure MapParamsOk where
  style_id : String
  intensity : String
  emphasis : String
  state : ParamPoint
  nearest_visual_type : String
  active_edge_modes : List String
  hydrology_state : String
  contrast_curve : String
  substrate : Option String
deriving DecidableEq, Repr

/-- Models `map_dissolution_parameters`: unknown style errors with the valid-id
list; otherwise intensity-scale, emphasis-shift and clamp the center, then
derive edge modes, hydrology state and contrast curve from the clamped
(unrounded) state; the reported state is rounded to 4 decimals.  The
substrate guard models Python's `if substrate and substrate in
SUBSTRATE_TYPES` (`None` and `""` are both falsy). -/
def map_dissolution_parameters (style_id intensity emphasis : String)
    (substrate : Option String) : Result MapParamsOk :=
  match lookup1 VISUAL_TYPES style_id with
  | none => .err ⟨"Unknown style: " ++ style_id, some (VISUAL_TYPES.map Prod.fst)⟩
  | some center =>
    let st := mapState center intensity emphasis
    .ok { style_id := style_id, intensity := intensity, emphasis := emphasis,
          state := roundPoint4 st,
          nearest_visual_type := (nearestVisualType st).1,
          active_edge_modes := activeEdgeModes st,
          hydrology_state := hydrologyStateOf st.pigment_hydrology,
          contrast_curve := contrastCurveOf st,
          substrate := match substrate with
            | none => none
            | some s => if s ≠ "" ∧ s ∈ SUBSTRATE_KEYS then some s else none }

/-! ### _softmax (over ℝ, with `Real.exp`) -/

/-- Evaluates `max(scores.values()) if scores else 0`. -/
def dictMax (vs : List ℝ) : ℝ :=
  match vs with
  | [] => 0
  | v :: rest => rest.foldl max v

/-- Models `_softmax`: numerically-stabilized softmax over an association list,
keys preserved; when the total is not positive the unnormalized
exponentials are returned (the source's degenerate fallback, reachable
only for the empty dict since `exp` is positive). -/
noncomputable def softmax (scores : List (String × ℝ)) (temperature : ℝ) :
    List (String × ℝ) :=
  let max_s := dictMax (scores.map Prod.snd)
  let exp_s := scores.map (fun kv => (kv.1, Real.exp ((kv.2 - max_s) / temperature)))
  let total := (exp_s.map Prod.snd).sum
  if 0 < total then exp_s.map (fun kv => (kv.1, kv.2 / total)) else exp_s

/-! ### decompose_dissolution_from_description -/

/-- The `fragment_map` table (weight 1.0 fragments). -/
def fragment_map : List (String × List String) :=
  [("editorial_wash",
    ["editorial", "magazine", "controlled", "sharp", "accent",
     "selective", "restrain", "subtle", "disciplin", "photographic"]),
   ("contested_boundary",
    ["tension", "between", "neither", "oscillat", "coexist",
     "compete", "boundary", "unresolved", "both", "mural"]),
   ("full_dissolution",
    ["dissolv", "loose", "bloom", "backrun", "granulat",
     "diffus", "abstract", "painterly", "watercolor", "paper texture"]),
   ("ghost_impression",
    ["ghost", "faded", "blueprint", "palimpsest", "trace",
     "skeleton", "bleach", "dry", "parchment", "iron-gall"]),
   ("substrate_emergence",
    ["paper", "white space", "negative space", "minimal",
     "restraint", "breath", "ma ", "sparse", "empty", "unpaint"]),
   ("chromatic_flood",
    ["flood", "saturat", "wet-on-wet", "drip", "capillary",
     "pour", "expressionist", "bold color", "vivid", "chromatic"])]

/-- The `optical_map` table (weight 0.5 fragments). -/
def optical_map : List (String × List String) :=
  [("editorial_wash", ["matte", "opaque", "photographic"]),
   ("contested_boundary", ["mixed", "variable", "halation"]),
   ("full_dissolution", ["translucent", "diffuse", "paper matte"]),
   ("ghost_impression", ["dry matte", "semi transparent", "no scatter"]),
   ("substrate_emergence", ["paper dominant", "zero scatter", "ground"]),
   ("chromatic_flood", ["wet satin", "maximum scatter", "saturated"])]

/-- The `color_map` table (weight 0.5 fragments). -/
def color_map : List (String × List String) :=
  [("editorial_wash", ["neutral", "muted", "editorial"]),
   ("contested_boundary", ["warm", "analogous", "amber"]),
   ("full_dissolution", ["diluted", "granulation", "paper white"]),
   ("ghost_impression", ["faded", "earth", "parchment", "tea"]),
   ("substrate_emergence", ["white dominant", "sparse", "chromatic island"]),
   ("chromatic_flood", ["saturated", "vivid", "intense", "bright"])]

/-- Evaluates `table.get(tid, [])`. -/
def termsOf (m : List (String × List String)) (tid : String) : List String :=
  (lookup1 m tid).getD []

/-- The per-type decomposition score: matched fragments weight 1.0,
matched optical and color fragments weight 0.5 each. -/
noncomputable def decomposeTypeScores (text : String) : List (String × ℝ) :=
  VISUAL_TYPES.map (fun p =>
    (p.1, (countMatches text (termsOf fragment_map p.1) : ℝ)
      + 0.5 * (countMatches text (termsOf optical_map p.1) : ℝ)
      + 0.5 * (countMatches text (termsOf color_map p.1) : ℝ)))

/-- The per-type weights: `_softmax(type_scores, temperature=1.0)`. -/
noncomputable def decompose_weights (description : String) : List (String × ℝ) :=
  softmax (decomposeTypeScores (toLowerStr description)) 1

/-- Rounding `round(x, 4)` over ℝ (output coordinates are reported rounded). -/
noncomputable def roundR4 (x : ℝ) : ℝ := ((round (x * 10000) : ℤ) : ℝ) / 10000

/-- One output coordinate of `decompose_dissolution_from_description`: the
weight-weighted average of the six type centers, rounded to 4 decimals.
The source accumulates `coordinates[k] += w * center[k]` over
`weights.items()`; `_softmax` preserves the key list of its input (two
key-preserving maps over the same association list built from
`VISUAL_TYPES`), so the positional pairing below multiplies exactly the
same weight/center pairs as the source's key lookup. -/
noncomputable def decompose_coordinates (description : String) (k : Axis) : ℝ :=
  roundR4 ((List.zipWith (fun w c => w * c)
    ((decompose_weights description).map Prod.snd)
    (VISUAL_TYPES.map (fun p => ((p.2.get k : ℚ) : ℝ)))).sum)

/-- Minimum of a list of rationals (the head seeds the fold; the `0` for the
empty list is never used on the nonempty center lists below). -/
def listMinQ : List ℚ → ℚ
  | [] => 0
  | v :: rest => rest.foldl min v

/-- Maximum of a list of rationals (see `listMinQ`). -/
def listMaxQ : List ℚ → ℚ
  | [] => 0
  | v :: rest => rest.foldl max v

/-- The minimum of coordinate `k` over the six visual type centers. -/
def axisMin (k : Axis) : ℚ := listMinQ (VISUAL_TYPES.map (fun p => p.2.get k))

/-- The maximum of coordinate `k` over the six visual type centers. -/
def axisMax (k : Axis) : ℚ := listMaxQ (VISUAL_TYPES.map (fun p => p.2.get k))

/-! ### generate_dissolution_attractor_prompt -/

/-- Result of `generate_dissolution_attractor_prompt`, keeping the fields
the claims inspect.  The `prompt`/`base_prompt` prose, keyword echoes,
per-category views and keyframe details are presentational and elided;
`sequence` keeps its keyframe count. -/
inductive AttractorPromptResult where
  | composite (state : ParamPoint) (nearest_type : String)
  | split_view (state : ParamPoint) (nearest_type : String)
  | sequence (keyframe_count : ℕ) (nearest_type : String)
  | unknown_mode (e : ErrorRecord)
deriving DecidableEq, Repr

/-- Models `generate_dissolution_attractor_prompt`: the state is the custom state
when supplied (Python truthiness: a supplied non-empty dict), else the
first hit in attractor-presets → visual-types → canonical-states, else the
`contested_boundary` center; only an unrecognized mode produces an error. -/
def generate_dissolution_attractor_prompt (attractor_id : String)
    (custom_state : Option ParamPoint) (mode : String) (keyframe_count : ℕ) :
    AttractorPromptResult :=
  let state :=
    match custom_state with
    | some s => s
    | none =>
      match lookup1 ATTRACTOR_PRESETS attractor_id with
      | some a => a.state
      | none =>
        match lookup1 VISUAL_TYPES attractor_id with
        | some c => c
        | none =>
          match lookup1 CANONICAL_STATES attractor_id with
          | some c => c
          | none => contestedBoundaryCenter
  let nr := nearestVisualType state
  if mode = "composite" then .composite (roundPoint4 state) nr.1
  else if mode = "split_view" then .split_view (roundPoint4 state) nr.1
  else if mode = "sequence" then .sequence keyframe_count nr.1
  else .unknown_mode ⟨"Unknown mode: " ++ mode, none⟩

/-! ## Helper lemmas -/

theorem get_pointOfFun (f : Axis → ℚ) (k : Axis) : (pointOfFun f).get k = f k := by
  cases k <;> rfl

theorem pointOfFun_eta (p : ParamPoint) : pointOfFun (fun k => p.get k) = p := rfl

/-- Unfolds `roundQ4` into the floor form that `norm_num` evaluates. -/
theorem roundQ4_eval (q : ℚ) : roundQ4 q = ((⌊q * 10000 + 1 / 2⌋ : ℤ) : ℚ) / 10000 := by
  rw [roundQ4, round_eq]

theorem round_monotone {α : Type} [LinearOrderedField α] [FloorRing α] {x y : α}
    (h : x ≤ y) : round x ≤ round y := by
  rw [round_eq, round_eq]
  exact Int.floor_mono (by linarith)

theorem roundQ4_nonneg {q : ℚ} (h : 0 ≤ q) : 0 ≤ roundQ4 q := by
  rw [roundQ4]
  have h0 : round ((0 : ℚ)) ≤ round (q * 10000) := round_monotone (by nlinarith)
  rw [round_zero] at h0
  positivity

theorem roundQ4_le_one {q : ℚ} (h : q ≤ 1) : roundQ4 q ≤ 1 := by
  rw [roundQ4]
  have h1 : round (q * 10000) ≤ round ((10000 : ℚ)) := round_monotone (by nlinarith)
  have h2 : round ((10000 : ℚ)) = 10000 := by norm_num
  rw [h2] at h1
  rw [div_le_one (by norm_num)]
  exact_mod_cast h1

theorem roundPoint4_eq_self {p : ParamPoint} (h : ∀ k, roundQ4 (p.get k) = p.get k) :
    roundPoint4 p = p := by
  rw [roundPoint4, funext h, pointOfFun_eta]

theorem clamp01_nonneg (x : ℚ) : 0 ≤ clamp01 x := le_max_left 0 _

theorem clamp01_le_one (x : ℚ) : clamp01 x ≤ 1 :=
  max_le (by norm_num) (min_le_left 1 x)

theorem lookup1_mem {α : Type} :
    ∀ (tbl : List (String × α)) (k : String) (v : α),
      lookup1 tbl k = some v → v ∈ tbl.map Prod.snd := by
  intro tbl
  induction tbl with
  | nil => intro k v h; simp [lookup1] at h
  | cons hd tl ih =>
    intro k v h
    rw [lookup1] at h
    by_cases hk : hd.1 = k
    · rw [if_pos hk] at h
      simp [Option.some.injEq] at h
      simp [h]
    · rw [if_neg hk] at h
      simp [ih k v h]

/-- Every point stored in any of the three catalogs has 2-decimal
coordinates, so the output rounding to 4 decimals fixes it. -/
theorem catalog_round_fix :
    ∀ q ∈ (CANONICAL_STATES.map Prod.snd) ++ (VISUAL_TYPES.map Prod.snd)
      ++ (ATTRACTOR_PRESETS.map Prod.snd).map AttractorPreset.state,
      roundPoint4 q = q := by
  intro q hq
  simp only [CANONICAL_STATES, VISUAL_TYPES, ATTRACTOR_PRESETS,
    editorialWashCenter, contestedBoundaryCenter, fullDissolutionCenter,
    ghostImpressionCenter, substrateEmergenceCenter, chromaticFloodCenter,
    restrainedStudyCoordinates, List.map_cons, List.map_nil,
    List.cons_append, List.nil_append, List.mem_cons, List.not_mem_nil,
    or_false] at hq
  rcases hq with rfl | rfl | rfl | rfl | rfl | rfl | rfl | rfl | rfl | rfl
    | rfl | rfl | rfl | rfl | rfl | rfl
    | rfl | rfl | rfl | rfl | rfl | rfl | rfl <;>
    (apply roundPoint4_eq_self
     intro k
     cases k <;> norm_num [roundQ4_eval, ParamPoint.get])

/-- A resolvable id's point survives the output rounding unchanged. -/
theorem resolve_round_fix (sid : String) (p : ParamPoint)
    (h : resolveStateId sid = some p) : roundPoint4 p = p := by
  apply catalog_round_fix
  rw [resolveStateId] at h
  rcases hc : lookup1 CANONICAL_STATES sid with _ | c
  · rw [hc] at h
    rcases hv : lookup1 VISUAL_TYPES sid with _ | c'
    · rw [hv] at h
      simp only [Option.map_eq_some'] at h
      obtain ⟨a, ha, rfl⟩ := h
      exact List.mem_append_right _
        (List.mem_map_of_mem AttractorPreset.state (lookup1_mem _ _ _ ha))
    · rw [hv] at h
      simp only [Option.some.injEq] at h
      subst h
      exact List.mem_append_left _
        (List.mem_append_right _ (lookup1_mem _ _ _ hv))
  · rw [hc] at h
    simp only [Option.some.injEq] at h
    subst h
    exact List.mem_append_left _
      (List.mem_append_left _ (lookup1_mem _ _ _ hc))

/-! ## C1 — dominant axis of distance editorial_wash → chromatic_flood -/

/-- Shared evaluation: the full per-axis difference record and dominant axis
for `compute_dissolution_distance("editorial_wash", "chromatic_flood")`. -/
theorem distance_editorial_chromatic_eval :
    (compute_dissolution_distance ("editorial_wash") ("chromatic_flood")).payload.map
      (fun r => (r.dominant_axis, r.per_axis_difference)) =
    some (Axis.dissolution_rate,
      [(Axis.dissolution_rate, 3 / 4), (Axis.edge_coherence, -13 / 20),
       (Axis.substrate_visibility, 2 / 5), (Axis.pigment_hydrology, 3 / 4),
       (Axis.anchor_density, -3 / 4)]) := by
  simp only [compute_dissolution_distance, resolveStateId, lookup1,
    CANONICAL_STATES, editorialWashCenter, chromaticFloodCenter,
    PARAMETER_NAMES, maxKeyByAbs, ParamPoint.get, Result.payload,
    List.map_cons, List.map_nil, List.foldl, String.reduceEq, reduceIte]
  norm_num [roundQ4_eval, abs_of_nonneg]

/-- C1 counterexample: the dominant axis reported for
`compute_dissolution_distance("editorial_wash", "chromatic_flood")` is
`dissolution_rate`, not `pigment_hydrology` as claimed — three axes tie at
absolute difference 0.75 and Python's `max` keeps the first key. -/
theorem distance_editorial_chromatic_not_hydrology :
    (compute_dissolution_distance ("editorial_wash") ("chromatic_flood")).payload.map
      (fun r => r.dominant_axis) ≠ some Axis.pigment_hydrology := by
  have h := distance_editorial_chromatic_eval
  have h1 : (compute_dissolution_distance ("editorial_wash") ("chromatic_flood")).payload.map
      (fun r => r.dominant_axis) = some Axis.dissolution_rate := by
    rcases hp : (compute_dissolution_distance ("editorial_wash") ("chromatic_flood")).payload
      with _ | r
    · rw [hp] at h; simp at h
    · rw [hp] at h
      simp only [Option.map_some', Option.some.injEq, Prod.mk.injEq] at h
      simp [h.1]
  rw [h1]
  simp

/-- C1 (amended): `compute_dissolution_distance("editorial_wash",
"chromatic_flood")` reports dominant_axis `dissolution_rate`: the absolute
per-axis differences are 0.75, 0.65, 0.40, 0.75, 0.75, a three-way tie at
0.75 in which Python's `max` keeps the earliest axis in canonical order. -/
theorem distance_editorial_chromatic_dominant_axis :
    (compute_dissolution_distance ("editorial_wash") ("chromatic_flood")).payload.map
      (fun r => (r.dominant_axis, r.per_axis_difference)) =
    some (Axis.dissolution_rate,
      [(Axis.dissolution_rate, 3 / 4), (Axis.edge_coherence, -13 / 20),
       (Axis.substrate_visibility, 2 / 5), (Axis.pigment_hydrology, 3 / 4),
       (Axis.anchor_density, -3 / 4)]) :=
  distance_editorial_chromatic_eval

/-! ## C3 — unknown-id errors of distance and trajectory -/

/-- C3 counterexample: for an id in none of the catalogs, both
`compute_dissolution_distance` and `compute_dissolution_trajectory` return
an error record carrying only the message — its `valid` field is `none`,
not the claimed list of valid identifiers. -/
theorem distance_trajectory_unknown_error_lacks_valid_list :
    compute_dissolution_distance ("mystery_id") ("chromatic_flood")
        = .err ⟨"Unknown id: " ++ "mystery_id", none⟩ ∧
    compute_dissolution_trajectory ("mystery_id") ("chromatic_flood") 4
        = .err ⟨"Unknown id: " ++ "mystery_id", none⟩ := by
  constructor <;>
    simp [compute_dissolution_distance, compute_dissolution_trajectory,
      resolveStateId, lookup1, CANONICAL_STATES, VISUAL_TYPES, ATTRACTOR_PRESETS]

/-- C3 (amended): for every identifier that resolves in none of the three
catalogs, `compute_dissolution_distance` and `compute_dissolution_trajectory`
return a structured error whose message names the offending id, but whose
payload carries no valid-identifier list (`valid = none`). -/
theorem distance_trajectory_unknown_id_error (bad good : String)
    (hbad : resolveStateId bad = none) :
    compute_dissolution_distance bad good = .err ⟨"Unknown id: " ++ bad, none⟩ ∧
    (∀ p, resolveStateId good = some p →
      compute_dissolution_distance good bad = .err ⟨"Unknown id: " ++ bad, none⟩) ∧
    (∀ n, compute_dissolution_trajectory bad good n
      = .err ⟨"Unknown id: " ++ bad, none⟩) ∧
    (∀ n p, resolveStateId good = some p →
      compute_dissolution_trajectory good bad n
        = .err ⟨"Unknown id: " ++ bad, none⟩) := by
  refine ⟨?_, ?_, ?_, ?_⟩
  · simp [compute_dissolution_distance, hbad]
  · intro p hp
    simp [compute_dissolution_distance, hp, hbad]
  · intro n
    simp [compute_dissolution_trajectory, hbad]
  · intro n p hp
    simp [compute_dissolution_trajectory, hp, hbad]

/-- C3 witness: the amended statement applied at the concrete unknown id
`"bogus_id"` against the resolvable `"editorial_wash"`. -/
theorem distance_trajectory_unknown_id_error_witness :
    compute_dissolution_distance ("bogus_id") ("editorial_wash")
        = .err ⟨"Unknown id: " ++ "bogus_id", none⟩ ∧
    compute_dissolution_distance ("editorial_wash") ("bogus_id")
        = .err ⟨"Unknown id: " ++ "bogus_id", none⟩ ∧
    compute_dissolution_trajectory ("bogus_id") ("editorial_wash") 5
        = .err ⟨"Unknown id: " ++ "bogus_id", none⟩ ∧
    compute_dissolution_trajectory ("editorial_wash") ("bogus_id") 5
        = .err ⟨"Unknown id: " ++ "bogus_id", none⟩ := by
  have hbad : resolveStateId ("bogus_id") = none := by
    simp [resolveStateId, lookup1, CANONICAL_STATES, VISUAL_TYPES, ATTRACTOR_PRESETS]
  have hgood : resolveStateId ("editorial_wash") = some editorialWashCenter := by
    simp [resolveStateId, lookup1, CANONICAL_STATES]
  have h := distance_trajectory_unknown_id_error ("bogus_id") ("editorial_wash") hbad
  exact ⟨h.1, h.2.1 editorialWashCenter hgood, h.2.2.1 5,
    h.2.2.2 5 editorialWashCenter hgood⟩

/-! ## C4 — chromatic_flood at dramatic intensity -/

/-- C4: `map_dissolution_parameters("chromatic_flood", intensity="dramatic")`
with default emphasis and no substrate yields `pigment_hydrology` exactly 1.0
(0.5 + (0.95−0.5)·1.4 = 1.13, clamped) and hydrology_state `"flooding"`. -/
theorem map_chromatic_dramatic_flooding :
    (map_dissolution_parameters ("chromatic_flood") ("dramatic") ("balanced")
        none).payload.map
      (fun r => (r.state.pigment_hydrology, r.hydrology_state))
      = some (1, "flooding") := by
  simp only [map_dissolution_parameters, lookup1, VISUAL_TYPES,
    chromaticFloodCenter, mapState, intensityScale, emphasisShift, clamp01,
    roundPoint4, pointOfFun, ParamPoint.get, hydrologyStateOf,
    Result.payload, String.reduceEq, reduceIte, Option.map_some']
  norm_num [roundQ4_eval]

/-! ## C6 — interpolation endpoints and trajectory endpoints -/

/-- C6: `_lerp_state(a, b, 0) = a` and `_lerp_state(a, b, 1) = b` exactly
for every pair of points, and for every pair of resolvable ids and any
`N ≥ 1` the trajectory has `N+1` samples whose step-0 state equals the
resolved start point and whose step-N state equals the resolved end point,
both exactly (the output rounding to 4 decimals fixes every catalog
point). -/
theorem lerp_endpoints_and_trajectory_endpoints :
    (∀ a b : ParamPoint, lerpState a b 0 = a ∧ lerpState a b 1 = b) ∧
    (∀ (s e : String) (N : ℕ) (ps pe : ParamPoint), 1 ≤ N →
      resolveStateId s = some ps → resolveStateId e = some pe →
      ∃ tr, compute_dissolution_trajectory s e N = .ok tr ∧
        tr.trajectory.length = N + 1 ∧
        tr.trajectory.head?.map TrajEntry.state = some ps ∧
        tr.trajectory.getLast?.map TrajEntry.state = some pe) := by
  have hlerp0 : ∀ a b : ParamPoint, lerpState a b 0 = a := by
    intro a b
    rw [lerpState,
      funext (fun k => by ring :
        ∀ k, a.get k + 0 * (b.get k - a.get k) = a.get k),
      pointOfFun_eta]
  have hlerp1 : ∀ a b : ParamPoint, lerpState a b 1 = b := by
    intro a b
    rw [lerpState,
      funext (fun k => by ring :
        ∀ k, a.get k + 1 * (b.get k - a.get k) = b.get k),
      pointOfFun_eta]
  refine ⟨fun a b => ⟨hlerp0 a b, hlerp1 a b⟩, ?_⟩
  intro s e N ps pe hN hs he
  simp only [compute_dissolution_trajectory, hs, he]
  refine ⟨_, rfl, ?_, ?_, ?_⟩
  · simp
  · rw [List.head?_map, List.range_succ_eq_map]
    simp only [List.head?_cons, Option.map_some']
    have ht : ((0 : ℕ) : ℚ) / (N : ℚ) = 0 := by simp
    simp only [ht, hlerp0 ps pe, Option.some.injEq]
    exact resolve_round_fix s ps hs
  · rw [List.getLast?_map, List.range_succ, List.getLast?_concat]
    have hNz : ((N : ℚ)) ≠ 0 := by
      exact_mod_cast Nat.pos_iff_ne_zero.mp hN
    have ht : ((N : ℕ) : ℚ) / (N : ℚ) = 1 := div_self hNz
    simp only [Option.map_some', ht, hlerp1 ps pe, Option.some.injEq]
    exact resolve_round_fix e pe he

/-- C6 witness: the theorem applied to the pair
`("editorial_wash", "chromatic_flood")` with 2 steps. -/
theorem lerp_endpoints_and_trajectory_endpoints_witness :
    lerpState editorialWashCenter chromaticFloodCenter 0 = editorialWashCenter ∧
    ∃ tr, compute_dissolution_trajectory ("editorial_wash") ("chromatic_flood") 2
        = .ok tr ∧
      tr.trajectory.length = 3 ∧
      tr.trajectory.head?.map TrajEntry.state = some editorialWashCenter ∧
      tr.trajectory.getLast?.map TrajEntry.state = some chromaticFloodCenter := by
  have h := lerp_endpoints_and_trajectory_endpoints
  refine ⟨(h.1 editorialWashCenter chromaticFloodCenter).1, ?_⟩
  exact h.2 ("editorial_wash") ("chromatic_flood") 2
    editorialWashCenter chromaticFloodCenter (by norm_num)
    (by simp [resolveStateId, lookup1, CANONICAL_STATES])
    (by simp [resolveStateId, lookup1, CANONICAL_STATES])

/-! ## C8 — mapped states stay inside the unit box -/

/-- C8: for every known style id and arbitrary intensity, emphasis and
substrate strings, every coordinate of the state returned by
`map_dissolution_parameters` lies in [0, 1]: the scaled and shifted value
is clamped before anything else is derived, and the output rounding
preserves the bounds. -/
theorem map_state_in_unit_box (style_id intensity emphasis : String)
    (substrate : Option String) (c : ParamPoint)
    (h : lookup1 VISUAL_TYPES style_id = some c) (k : Axis) :
    ∃ r, map_dissolution_parameters style_id intensity emphasis substrate = .ok r ∧
      0 ≤ r.state.get k ∧ r.state.get k ≤ 1 := by
  simp only [map_dissolution_parameters, h]
  refine ⟨_, rfl, ?_, ?_⟩
  · show 0 ≤ (roundPoint4 (mapState c intensity emphasis)).get k
    rw [roundPoint4, get_pointOfFun]
    refine roundQ4_nonneg ?_
    rw [mapState, get_pointOfFun]
    exact clamp01_nonneg _
  · show (roundPoint4 (mapState c intensity emphasis)).get k ≤ 1
    rw [roundPoint4, get_pointOfFun]
    refine roundQ4_le_one ?_
    rw [mapState, get_pointOfFun]
    exact clamp01_le_one _

/-- C8 witness: the theorem applied to `"editorial_wash"` with an
unrecognized intensity string and the hydrology emphasis. -/
theorem map_state_in_unit_box_witness :
    ∃ r, map_dissolution_parameters ("editorial_wash") ("extreme") ("hydrology")
        (some ("rough")) = .ok r ∧
      0 ≤ r.state.get .pigment_hydrology ∧ r.state.get .pigment_hydrology ≤ 1 :=
  map_state_in_unit_box ("editorial_wash") ("extreme") ("hydrology")
    (some ("rough")) editorialWashCenter (by simp [lookup1, VISUAL_TYPES])
    .pigment_hydrology

/-! ## C2 — hydrology hint tie policy -/

/-- The source's hydrology loop equals the last-match-wins policy: the
`break` leaves only the inner loop, so the last category (in declaration
order) with a matching term overwrites every earlier match. -/
theorem detectHydrology_eq_lastMatch (text : String) :
    detectHydrology text = lastMatchHydrology text := by
  simp only [detectHydrology, lastMatchHydrology, lastMatchCat,
    hydrology_terms, List.foldl_cons, List.foldl_nil]
  cases h1 : ["dry brush", "dry", "textured", "broken", "scratchy"].any
      (fun term => containsTerm text term) <;>
    cases h2 : ["controlled", "even", "smooth", "balanced", "standard"].any
      (fun term => containsTerm text term) <;>
    cases h3 : ["layered", "crisp layer", "hard edge layer", "glazing"].any
      (fun term => containsTerm text term) <;>
    cases h4 : ["wet on wet", "diffuse", "merge", "soft edge", "bloom"].any
      (fun term => containsTerm text term) <;>
    cases h5 : ["flood", "drip", "gravity", "pour", "capillary", "run"].any
      (fun term => containsTerm text term) <;>
    simp [h1, h2, h3, h4, h5, hydrologyKey]

/-- C2 counterexample: on the text `"dry flood"`, which matches both the
first category (`dry`, via `"dry"`) and the last (`flooding`, via
`"flood"`), the classifier reports `"flooding"`, while the claimed
first-match-wins policy would report `"dry_brush"`. -/
theorem classify_hydrology_not_first_match :
    (classify_dissolution_intent ("dry flood")).suggested_hydrology = "flooding" ∧
    firstMatchHydrology (toLowerStr ("dry flood")) = "dry_brush" ∧
    ("flooding" : String) ≠ "dry_brush" := by
  refine ⟨?_, by decide, by decide⟩
  show detectHydrology (toLowerStr ("dry flood")) = "flooding"
  decide

/-- C2 (amended): for every input text, the reported suggested_hydrology is
the **last** category in declaration order (dry, controlled, wet_on_dry,
wet_on_wet, flooding) with at least one term occurring as a substring of
the lowercased text (a later category's match overwrites an earlier one;
`dry` is renamed `dry_brush`), with `"controlled_wash"` as the default when
no category matches. -/
theorem classify_hydrology_last_match (user_intent : String) :
    (classify_dissolution_intent user_intent).suggested_hydrology
      = lastMatchHydrology (toLowerStr user_intent) :=
  detectHydrology_eq_lastMatch (toLowerStr user_intent)

/-! ## C5 — classifier default on zero scores -/

/-- C5: whenever no term of any visual type matches the (lowercased) input
text, `classify_dissolution_intent` returns the `contested_boundary`
default with confidence exactly 0.3 — a policy value, not an error. -/
theorem classify_no_match_default (user_intent : String)
    (h : ∀ p ∈ dissolution_terms, countMatches (toLowerStr user_intent) p.2 = 0) :
    (classify_dissolution_intent user_intent).primary_style = "contested_boundary" ∧
    (classify_dissolution_intent user_intent).confidence = 0.3 := by
  simp only [dissolution_terms, List.forall_mem_cons,
    List.not_mem_nil, false_implies, implies_true, and_true] at h
  obtain ⟨h1, h2, h3, h4, h5, h6⟩ := h
  constructor <;>
    simp [classify_dissolution_intent, dissolution_terms, h1, h2, h3, h4, h5, h6,
      listMaxNat]

/-- C5 witness: the empty description matches nothing, so the classifier
returns `contested_boundary` at confidence exactly 0.3. -/
theorem classify_no_match_default_witness :
    (classify_dissolution_intent ("")).primary_style = "contested_boundary" ∧
    (classify_dissolution_intent ("")).confidence = 0.3 :=
  classify_no_match_default ("") (by decide)

/-! ## Softmax lemmas (shared by C7 and C9) -/

theorem sum_map_exp_pos (l : List (String × ℝ)) (f : String × ℝ → ℝ)
    (h : l ≠ []) :
    0 < ((l.map (fun kv => (kv.1, Real.exp (f kv)))).map Prod.snd).sum := by
  apply List.sum_pos
  · intro x hx
    rw [List.map_map] at hx
    obtain ⟨kv, hkv, rfl⟩ := List.mem_map.mp hx
    exact Real.exp_pos _
  · intro hnil
    rw [List.map_map] at hnil
    exact h (List.map_eq_nil_iff.mp hnil)

theorem softmax_empty (T : ℝ) : softmax [] T = [] := by
  simp [softmax]

theorem softmax_nonneg (scores : List (String × ℝ)) (T : ℝ) :
    ∀ kv ∈ softmax scores T, 0 ≤ kv.2 := by
  intro kv hkv
  simp only [softmax] at hkv
  split at hkv
  case isTrue hpos =>
    rw [List.map_map] at hkv
    obtain ⟨kv0, _, rfl⟩ := List.mem_map.mp hkv
    exact div_nonneg (Real.exp_pos _).le hpos.le
  case isFalse _ =>
    obtain ⟨kv0, _, rfl⟩ := List.mem_map.mp hkv
    exact (Real.exp_pos _).le

theorem softmax_length (scores : List (String × ℝ)) (T : ℝ) :
    (softmax scores T).length = scores.length := by
  simp only [softmax]
  split <;> simp

theorem softmax_sum_one (scores : List (String × ℝ)) (T : ℝ) (h : scores ≠ []) :
    ((softmax scores T).map Prod.snd).sum = 1 := by
  have hpos := sum_map_exp_pos scores
    (fun kv => (kv.2 - dictMax (scores.map Prod.snd)) / T) h
  simp only [softmax]
  rw [if_pos hpos, List.map_map, List.map_map]
  have hrw : (Prod.snd ∘ fun kv : String × ℝ =>
        (kv.1, kv.2 / ((scores.map (fun kv => (kv.1,
          Real.exp ((kv.2 - dictMax (scores.map Prod.snd)) / T)))).map Prod.snd).sum))
      ∘ (fun kv : String × ℝ =>
        (kv.1, Real.exp ((kv.2 - dictMax (scores.map Prod.snd)) / T)))
      = fun kv : String × ℝ =>
        Real.exp ((kv.2 - dictMax (scores.map Prod.snd)) / T)
          * (((scores.map (fun kv => (kv.1,
              Real.exp ((kv.2 - dictMax (scores.map Prod.snd)) / T)))).map
                Prod.snd).sum)⁻¹ := by
    funext kv
    simp [div_eq_mul_inv]
  rw [hrw, List.sum_map_mul_right]
  rw [show (scores.map (fun kv : String × ℝ =>
      Real.exp ((kv.2 - dictMax (scores.map Prod.snd)) / T))).sum
    = ((scores.map (fun kv : String × ℝ => (kv.1,
        Real.exp ((kv.2 - dictMax (scores.map Prod.snd)) / T)))).map Prod.snd).sum
    from by rw [List.map_map]; rfl]
  exact mul_inv_cancel₀ (ne_of_gt hpos)

theorem foldl_max_const (c : ℝ) :
    ∀ l : List ℝ, (∀ x ∈ l, x = c) → l.foldl max c = c := by
  intro l
  induction l with
  | nil => intro _; rfl
  | cons a l ih =>
    intro h
    have ha : a = c := h a (by simp)
    simp only [List.foldl_cons, ha, max_self]
    exact ih (fun x hx => h x (by simp [hx]))

theorem dictMax_const (vs : List ℝ) (c : ℝ) (h : ∀ v ∈ vs, v = c)
    (hne : vs ≠ []) : dictMax vs = c := by
  cases vs with
  | nil => exact absurd rfl hne
  | cons v rest =>
    have hv : v = c := h v (by simp)
    rw [dictMax, hv]
    exact foldl_max_const c rest (fun x hx => h x (by simp [hx]))

theorem sum_map_one (l : List (String × ℝ)) :
    (l.map (fun _ => (1 : ℝ))).sum = l.length := by
  induction l with
  | nil => simp
  | cons a l ih => simp [ih]; ring

theorem softmax_uniform (scores : List (String × ℝ)) (T c : ℝ)
    (hne : scores ≠ []) (hc : ∀ kv ∈ scores, kv.2 = c) :
    softmax scores T = scores.map (fun kv => (kv.1, ((scores.length : ℝ))⁻¹)) := by
  have hmax : dictMax (scores.map Prod.snd) = c := by
    apply dictMax_const
    · intro v hv
      obtain ⟨kv, hkv, rfl⟩ := List.mem_map.mp hv
      exact hc kv hkv
    · intro hnil
      exact hne (List.map_eq_nil_iff.mp hnil)
  have hexp : scores.map (fun kv : String × ℝ =>
      (kv.1, Real.exp ((kv.2 - dictMax (scores.map Prod.snd)) / T)))
      = scores.map (fun kv => (kv.1, (1 : ℝ))) := by
    apply List.map_congr_left
    intro kv hkv
    rw [hmax, hc kv hkv]
    simp
  have htot : ((scores.map (fun kv : String × ℝ =>
      (kv.1, Real.exp ((kv.2 - dictMax (scores.map Prod.snd)) / T)))).map
        Prod.snd).sum = (scores.length : ℝ) := by
    rw [hexp, List.map_map]
    exact sum_map_one scores
  have hlenpos : (0 : ℝ) < scores.length := by
    have : scores.length ≠ 0 := fun h0 => hne (List.length_eq_zero.mp h0)
    exact_mod_cast Nat.pos_of_ne_zero this
  simp only [softmax]
  rw [if_pos (by rw [htot]; exact hlenpos)]
  rw [htot, hexp, List.map_map]
  apply List.map_congr_left
  intro kv _
  simp [one_div]

/-! ## C7 — softmax specification -/

/-- C7: for every non-empty score mapping the softmax output values sum to
exactly 1; if all scores are equal the output is the uniform distribution
(each weight `1/n`); and the empty mapping yields the empty mapping rather
than an error. -/
theorem softmax_spec (scores : List (String × ℝ)) (T : ℝ) (hne : scores ≠ []) :
    ((softmax scores T).map Prod.snd).sum = 1 ∧
    (∀ c, (∀ kv ∈ scores, kv.2 = c) →
      softmax scores T = scores.map (fun kv => (kv.1, ((scores.length : ℝ))⁻¹))) ∧
    softmax ([] : List (String × ℝ)) T = [] :=
  ⟨softmax_sum_one scores T hne,
   fun c hc => softmax_uniform scores T c hne hc,
   softmax_empty T⟩

/-- C7 witness: the spec applied to the concrete two-entry equal-score
mapping `{"a": 2, "b": 2}` at temperature 1. -/
theorem softmax_spec_witness :
    ((softmax ([("a", (2 : ℝ)), ("b", 2)]) 1).map Prod.snd).sum = 1 ∧
    softmax ([("a", (2 : ℝ)), ("b", 2)]) 1
      = [("a", ((2 : ℝ))⁻¹), ("b", ((2 : ℝ))⁻¹)] := by
  have h := softmax_spec ([("a", (2 : ℝ)), ("b", 2)]) 1 (by simp)
  refine ⟨h.1, ?_⟩
  have h2 := h.2.1 2 (by
    intro kv hkv
    rcases List.mem_cons.mp hkv with rfl | hkv'
    · rfl
    · rcases List.mem_cons.mp hkv' with rfl | h''
      · rfl
      · simp at h'')
  rw [h2]
  norm_num

/-! ## Convex-combination and real-rounding lemmas (for C9) -/

theorem le_sum_zipWith_mul (m : ℝ) :
    ∀ (ws cs : List ℝ), ws.length = cs.length → (∀ w ∈ ws, 0 ≤ w) →
      (∀ c ∈ cs, m ≤ c) →
      m * ws.sum ≤ (List.zipWith (fun w c => w * c) ws cs).sum := by
  intro ws
  induction ws with
  | nil => intro cs _ _ _; simp
  | cons w ws ih =>
    intro cs hlen hw hc
    cases cs with
    | nil => simp at hlen
    | cons c cs =>
      simp only [List.zipWith_cons_cons, List.sum_cons]
      have h1 : m * w ≤ w * c := by
        rw [mul_comm]
        exact mul_le_mul_of_nonneg_left (hc c (by simp)) (hw w (by simp))
      have h2 : m * ws.sum ≤ (List.zipWith (fun w c => w * c) ws cs).sum :=
        ih cs (by simpa using hlen) (fun x hx => hw x (by simp [hx]))
          (fun x hx => hc x (by simp [hx]))
      calc m * (w + ws.sum) = m * w + m * ws.sum := by ring
        _ ≤ w * c + (List.zipWith (fun w c => w * c) ws cs).sum := add_le_add h1 h2

theorem sum_zipWith_mul_le (M : ℝ) :
    ∀ (ws cs : List ℝ), ws.length = cs.length → (∀ w ∈ ws, 0 ≤ w) →
      (∀ c ∈ cs, c ≤ M) →
      (List.zipWith (fun w c => w * c) ws cs).sum ≤ M * ws.sum := by
  intro ws
  induction ws with
  | nil => intro cs _ _ _; simp
  | cons w ws ih =>
    intro cs hlen hw hc
    cases cs with
    | nil => simp at hlen
    | cons c cs =>
      simp only [List.zipWith_cons_cons, List.sum_cons]
      have h1 : w * c ≤ M * w := by
        rw [mul_comm M w]
        exact mul_le_mul_of_nonneg_left (hc c (by simp)) (hw w (by simp))
      have h2 : (List.zipWith (fun w c => w * c) ws cs).sum ≤ M * ws.sum :=
        ih cs (by simpa using hlen) (fun x hx => hw x (by simp [hx]))
          (fun x hx => hc x (by simp [hx]))
      calc w * c + (List.zipWith (fun w c => w * c) ws cs).sum
          ≤ M * w + M * ws.sum := add_le_add h1 h2
        _ = M * (w + ws.sum) := by ring

theorem roundR4_mono {x y : ℝ} (h : x ≤ y) : roundR4 x ≤ roundR4 y := by
  rw [roundR4, roundR4]
  have hr : round (x * 10000) ≤ round (y * 10000) :=
    round_monotone (by nlinarith)
  have : ((round (x * 10000) : ℤ) : ℝ) ≤ ((round (y * 10000) : ℤ) : ℝ) :=
    Int.cast_le.mpr hr
  linarith

/-- Rounding over ℝ agrees with rounding over ℚ on rational inputs. -/
theorem roundR4_ratCast (q : ℚ) : roundR4 ((q : ℝ)) = ((roundQ4 q : ℚ) : ℝ) := by
  rw [roundR4, roundQ4]
  rw [show ((q : ℝ) * 10000) = (((q * 10000 : ℚ)) : ℝ) from by push_cast; ring,
    Rat.round_cast]
  push_cast
  ring

/-- Per-axis bounds of the six centers (ℚ level). -/
theorem axis_center_bounds (k : Axis) :
    ∀ q ∈ VISUAL_TYPES.map (fun p => p.2.get k), axisMin k ≤ q ∧ q ≤ axisMax k := by
  intro q hq
  cases k <;>
    (simp only [VISUAL_TYPES, axisMin, axisMax, listMinQ, listMaxQ,
      editorialWashCenter, contestedBoundaryCenter, fullDissolutionCenter,
      ghostImpressionCenter, substrateEmergenceCenter, chromaticFloodCenter,
      ParamPoint.get, List.map_cons, List.map_nil, List.foldl_cons,
      List.foldl_nil, List.mem_cons, List.not_mem_nil, or_false] at hq ⊢
     rcases hq with rfl | rfl | rfl | rfl | rfl | rfl <;>
       constructor <;> norm_num [min_def, max_def])

/-- The per-axis center minima/maxima are 2-decimal values, so rounding to
4 decimals fixes them. -/
theorem axisMin_round_fix (k : Axis) : roundQ4 (axisMin k) = axisMin k := by
  cases k <;>
    norm_num [axisMin, listMinQ, VISUAL_TYPES, editorialWashCenter,
      contestedBoundaryCenter, fullDissolutionCenter, ghostImpressionCenter,
      substrateEmergenceCenter, chromaticFloodCenter, ParamPoint.get,
      min_def, roundQ4_eval]

theorem axisMax_round_fix (k : Axis) : roundQ4 (axisMax k) = axisMax k := by
  cases k <;>
    norm_num [axisMax, listMaxQ, VISUAL_TYPES, editorialWashCenter,
      contestedBoundaryCenter, fullDissolutionCenter, ghostImpressionCenter,
      substrateEmergenceCenter, chromaticFloodCenter, ParamPoint.get,
      max_def, roundQ4_eval]

/-! ## C9 — decomposition stays in the centers' bounding box -/

/-- C9: for every input description and every axis, the coordinate returned
by `decompose_dissolution_from_description` lies between the minimum and
the maximum of that coordinate over the six visual type centers (the
output is a softmax-weighted convex combination of the centers, and the
output rounding preserves the 2-decimal bounds). -/
theorem decompose_within_center_box (description : String) (k : Axis) :
    ((axisMin k : ℚ) : ℝ) ≤ decompose_coordinates description k ∧
    decompose_coordinates description k ≤ ((axisMax k : ℚ) : ℝ) := by
  have hscne : decomposeTypeScores (toLowerStr description) ≠ [] := by
    simp [decomposeTypeScores, VISUAL_TYPES]
  have hsum : ((decompose_weights description).map Prod.snd).sum = 1 :=
    softmax_sum_one _ 1 hscne
  have hlen : ((decompose_weights description).map Prod.snd).length
      = (VISUAL_TYPES.map (fun p => ((p.2.get k : ℚ) : ℝ))).length := by
    rw [List.length_map, List.length_map, decompose_weights, softmax_length,
      decomposeTypeScores, List.length_map]
  have hnn : ∀ w ∈ (decompose_weights description).map Prod.snd, 0 ≤ w := by
    intro w hw
    obtain ⟨kv, hkv, rfl⟩ := List.mem_map.mp hw
    exact softmax_nonneg _ 1 kv hkv
  have hlow : ∀ c ∈ VISUAL_TYPES.map (fun p => ((p.2.get k : ℚ) : ℝ)),
      ((axisMin k : ℚ) : ℝ) ≤ c := by
    intro c hc
    obtain ⟨p, hp, rfl⟩ := List.mem_map.mp hc
    have := (axis_center_bounds k (p.2.get k)
      (List.mem_map_of_mem (fun p => p.2.get k) hp)).1
    exact_mod_cast this
  have hhigh : ∀ c ∈ VISUAL_TYPES.map (fun p => ((p.2.get k : ℚ) : ℝ)),
      c ≤ ((axisMax k : ℚ) : ℝ) := by
    intro c hc
    obtain ⟨p, hp, rfl⟩ := List.mem_map.mp hc
    have := (axis_center_bounds k (p.2.get k)
      (List.mem_map_of_mem (fun p => p.2.get k) hp)).2
    exact_mod_cast this
  have hle := le_sum_zipWith_mul ((axisMin k : ℚ) : ℝ) _ _ hlen hnn hlow
  have hge := sum_zipWith_mul_le ((axisMax k : ℚ) : ℝ) _ _ hlen hnn hhigh
  rw [hsum, mul_one] at hle hge
  constructor
  · calc ((axisMin k : ℚ) : ℝ) = ((roundQ4 (axisMin k) : ℚ) : ℝ) := by
          rw [axisMin_round_fix]
      _ = roundR4 ((axisMin k : ℚ) : ℝ) := (roundR4_ratCast _).symm
      _ ≤ decompose_coordinates description k := roundR4_mono hle
  · calc decompose_coordinates description k
        ≤ roundR4 ((axisMax k : ℚ) : ℝ) := roundR4_mono hge
      _ = ((roundQ4 (axisMax k) : ℚ) : ℝ) := roundR4_ratCast _
      _ = ((axisMax k : ℚ) : ℝ) := by rw [axisMax_round_fix]

/-! ## C10 — attractor prompt silent fallback -/

/-- C10: with no custom state and an attractor id resolving in none of the
attractor-preset, visual-type, or canonical-state catalogs, the default
(composite) mode of `generate_dissolution_attractor_prompt` silently falls
back to the `contested_boundary` center and returns a successful prompt
bundle for that point — not an error. -/
theorem attractor_prompt_unknown_id_fallback (attractor_id : String)
    (ha : lookup1 ATTRACTOR_PRESETS attractor_id = none)
    (hv : lookup1 VISUAL_TYPES attractor_id = none)
    (hc : lookup1 CANONICAL_STATES attractor_id = none) (kc : ℕ) :
    generate_dissolution_attractor_prompt attractor_id none ("composite") kc
      = .composite contestedBoundaryCenter ("contested_boundary") := by
  simp only [generate_dissolution_attractor_prompt, ha, hv, hc,
    String.reduceEq, reduceIte, if_true]
  norm_num [nearestVisualType, euclideanDistanceSq, VISUAL_TYPES,
    editorialWashCenter, contestedBoundaryCenter, fullDissolutionCenter,
    ghostImpressionCenter, substrateEmergenceCenter, chromaticFloodCenter,
    PARAMETER_NAMES, ParamPoint.get, roundPoint4, pointOfFun, roundQ4_eval]

/-- C10 witness: the empty-string default id resolves nowhere, so the call
falls back to the `contested_boundary` center. -/
theorem attractor_prompt_unknown_id_fallback_witness :
    generate_dissolution_attractor_prompt ("") none ("composite") 4
      = .composite contestedBoundaryCenter ("contested_boundary") :=
  attractor_prompt_unknown_id_fallback ("")
    (by simp [lookup1, ATTRACTOR_PRESETS])
    (by simp [lookup1, VISUAL_TYPES])
    (by simp [lookup1, CANONICAL_STATES]) 4

end WatercolorDissolution
